import Mathlib

/-!
Shallow embedding of the AI-Doctor-Assistant pipeline.

Sources embedded:
- `brain_of_the_doctor.py`: `encode_image`, `symptom_checker`, `fetch_medical_knowledge`
- `voice_of_the_patient.py`: `transcribe_with_groq`
- `voice_of_the_doctor.py`: `text_to_speech_with_gtts` (output-path construction)
- `gradio_app.py`: `process_inputs` (the orchestrator)

External services (Groq transcription/vision, emotion API, translation, speech
synthesis) are modelled as an environment of oracle functions; filesystem reads
are modelled as functions from paths to optional byte lists.  Python exceptions
that can escape `process_inputs` are modelled with `Except`; the global
`conversation_memory` list is threaded explicitly and returned alongside the
outcome, since Python mutates it in place even when an exception is raised
later in the call.
-/

namespace AIDoctor

/-- Python exception kinds that the embedded code can raise. -/
inductive PyError
  | attributeError
  | typeError
  | nameError
  | fileNotFoundError
  deriving DecidableEq, Repr

/-- Python `str.lower()` restricted to the ASCII range (all table keys are ASCII). -/
def pyLower (s : String) : String := String.mk (s.data.map Char.toLower)

/-- The six characters Python `str.strip()` removes by default. -/
def isPySpace (c : Char) : Bool :=
  c = ' ' || c = '\t' || c = '\n' || c = '\x0d' || c = '\x0b' || c = '\x0c'

/-- Python `str.strip()`: drop whitespace from both ends. -/
def pyStrip (s : String) : String :=
  String.mk (((s.data.dropWhile isPySpace).reverse.dropWhile isPySpace).reverse)

/-- Substring containment on character lists, scanning left to right, as
Python's `k in s` does for strings (an empty `k` is contained in anything). -/
def containsSeq (k : List Char) : List Char → Bool
  | [] => k.isEmpty
  | c :: rest => ((c :: rest).take k.length == k) || containsSeq k rest

/-- Python `k in s` on strings. -/
def pyIn (k s : String) : Bool := containsSeq k.data s.data

/-- Python truthiness of a string: `""` is falsy. -/
def strTruthy (s : String) : Bool := s ≠ ""

/-- Python truthiness of an optional string: `None` and `""` are falsy. -/
def optTruthy : Option String → Bool
  | none => false
  | some s => s ≠ ""

/-! ## brain_of_the_doctor.py — knowledge lookup -/

/-- `symptom_mapping` dict of `symptom_checker` (insertion order preserved). -/
def symptom_mapping : List (String × String) :=
  [("headache", "Do you have any other symptoms like fever or nausea?"),
   ("fever", "How long have you had the fever? Is it accompanied by chills or sweating?"),
   ("cough", "Is your cough dry or productive? Do you have shortness of breath?"),
   ("chest pain", "Is the pain sharp or dull? Does it radiate to your arm or jaw?"),
   ("fatigue", "Have you been experiencing fatigue for a long time? Do you have trouble sleeping?"),
   ("abdominal pain", "Where exactly is the pain located? Is it sharp or cramping?")]

/-- `medical_knowledge` dict of `fetch_medical_knowledge` (insertion order preserved). -/
def medical_knowledge : List (String × String) :=
  [("headache", "Headaches can be caused by stress, dehydration, or migraines. Drink water and rest."),
   ("fever", "Fever is often a sign of infection. Monitor your temperature and stay hydrated."),
   ("cough", "A cough can be due to a cold, flu, or allergies. Rest and drink warm fluids."),
   ("chest pain", "Chest pain can indicate heart issues. Seek medical attention immediately."),
   ("fatigue", "Fatigue can result from lack of sleep, stress, or underlying health conditions."),
   ("abdominal pain", "Abdominal pain can be caused by indigestion, gas, or more serious conditions.")]

/-- First table entry whose key occurs in the lower-cased input (the `for`
loop over `dict.items()` with an early `return`). -/
def firstMatch (table : List (String × String)) (u : String) : Option (String × String) :=
  table.find? (fun p => pyIn p.1 (pyLower u))

/-- `symptom_checker` (brain_of_the_doctor.py lines 72-98). -/
def symptom_checker (user_input : String) : String :=
  match firstMatch symptom_mapping user_input with
  | some (symptom, question) => "I see you mentioned " ++ symptom ++ ". " ++ question
  | none => "Can you describe your symptoms in more detail?"

/-- `fetch_medical_knowledge` (brain_of_the_doctor.py lines 102-128). -/
def fetch_medical_knowledge (query : String) : String :=
  match firstMatch medical_knowledge query with
  | some (_, info) => "Medical Information: " ++ info
  | none => "I recommend consulting a healthcare professional for more detailed information."

/-! ## brain_of_the_doctor.py — base64 image encoding -/

/-- The standard base64 alphabet, index 0 to 63. -/
def b64Alphabet : List Char :=
  ['A','B','C','D','E','F','G','H','I','J','K','L','M','N','O','P','Q','R','S','T','U','V','W','X','Y','Z',
   'a','b','c','d','e','f','g','h','i','j','k','l','m','n','o','p','q','r','s','t','u','v','w','x','y','z',
   '0','1','2','3','4','5','6','7','8','9','+','/']

/-- Character for a 6-bit group. -/
def b64Char (n : Nat) : Char := b64Alphabet.getD n 'A'

/-- 6-bit value of a base64 character (position in the alphabet). -/
def b64Val (c : Char) : Nat := b64Alphabet.indexOf c

/-- `base64.b64encode` on a byte list (each byte `< 256`), producing the
padded base64 character stream. -/
def b64encode : List Nat → List Char
  | [] => []
  | [b0] => [b64Char (b0 / 4), b64Char (b0 % 4 * 16), '=', '=']
  | [b0, b1] => [b64Char (b0 / 4), b64Char (b0 % 4 * 16 + b1 / 16), b64Char (b1 % 16 * 4), '=']
  | b0 :: b1 :: b2 :: rest =>
      b64Char (b0 / 4) :: b64Char (b0 % 4 * 16 + b1 / 16) ::
        b64Char (b1 % 16 * 4 + b2 / 64) :: b64Char (b2 % 64) :: b64encode rest

/-- `base64.b64decode` on a character list: four characters yield three bytes,
with `=` padding cutting the final quantum short. -/
def b64decode : List Char → List Nat
  | c0 :: c1 :: c2 :: c3 :: rest =>
      if c2 = '=' then [b64Val c0 * 4 + b64Val c1 / 16]
      else if c3 = '=' then
        [b64Val c0 * 4 + b64Val c1 / 16, b64Val c1 % 16 * 16 + b64Val c2 / 4]
      else
        (b64Val c0 * 4 + b64Val c1 / 16) :: (b64Val c1 % 16 * 16 + b64Val c2 / 4) ::
          (b64Val c2 % 4 * 64 + b64Val c3) :: b64decode rest
  | _ => []

/-- `encode_image` (brain_of_the_doctor.py lines 16-32).  The filesystem is a
map from paths to optional byte contents; `none` means `os.path.exists` is
false, in which case the function raises `FileNotFoundError`. -/
def encode_image (fs : String → Option (List Nat)) (image_path : String) :
    Except PyError String :=
  match fs image_path with
  | none => Except.error PyError.fileNotFoundError
  | some bytes => Except.ok (String.mk (b64encode bytes))

/-! ## voice_of_the_patient.py — transcription -/

/-- `transcribe_with_groq` (voice_of_the_patient.py lines 56-86).  The remote
Groq call is an oracle: `Except.error e` models the call raising (caught by the
`except` block), `Except.ok none` a falsy transcription object, and
`Except.ok (some txt)` a transcription whose `.text` is `txt`. -/
def transcribe_with_groq (fileExists : String → Bool)
    (remote : Except String (Option String))
    (_stt_model audio_filepath _groq_api_key _language : String) : String :=
  if ¬ fileExists audio_filepath then "Error: Audio file not found."
  else
    match remote with
    | Except.error _ => "Error: Failed to transcribe audio."
    | Except.ok none => "Error: No transcription result."
    | Except.ok (some txt) => txt

/-! ## voice_of_the_doctor.py — gTTS output path -/

/-- `GTTS_SUPPORTED_LANGUAGES` dict (voice_of_the_doctor.py lines 26-42). -/
def gtts_supported_languages : List (String × String) :=
  [("English", "en"), ("Hindi", "hi"), ("Bengali", "bn"), ("Telugu", "te"),
   ("Marathi", "mr"), ("Tamil", "ta"), ("Urdu", "ur"), ("Gujarati", "gu"),
   ("Malayalam", "ml"), ("Kannada", "kn"), ("Odia", "or"), ("Punjabi", "pa"),
   ("Assamese", "as"), ("Maithili", "hi"), ("Santali", "hi")]

/-- Decimal digit character, as Python `str(int)` prints (`0` to `9`). -/
def decDigitChar (d : Nat) : Char := Char.ofNat (48 + d)

/-- Numeric value of a decimal digit character. -/
def decCharVal (c : Char) : Nat := c.toNat - 48

/-- Python `str(n)` for a natural number: its decimal digit characters. -/
def decRepr (n : Nat) : List Char :=
  if n = 0 then ['0'] else ((Nat.digits 10 n).map decDigitChar).reverse

/-- `text_to_speech_with_gtts` (voice_of_the_doctor.py lines 54-63), reduced to
the value it returns: the output path
`f"{output_filepath}_{int(time.time())}.mp3"`.  `timeNow` is the value of
`int(time.time())` observed during the invocation (whole seconds). -/
def text_to_speech_with_gtts (_input_text output_filepath lang : String)
    (timeNow : Nat) : String :=
  let _lang_code : String :=
    ((gtts_supported_languages.find? (fun p => p.1 == lang)).map Prod.snd).getD "en"
  output_filepath ++ "_" ++ String.mk (decRepr timeNow) ++ ".mp3"

/-! ## gradio_app.py — the orchestrator -/

/-- Message role in the conversation memory. -/
inductive Role
  | user
  | system
  | assistant
  deriving DecidableEq, Repr

/-- One entry of `conversation_memory`. -/
structure Turn where
  role : Role
  content : String
  deriving DecidableEq, Repr

/-- The persona prompt `system_prompt` of gradio_app.py (lines 16-22). -/
def system_prompt : String :=
  "You have to act as a professional doctor. \n            What\x27s in this image? Do you find anything wrong with it medically? \n            If you make a differential, suggest some remedies for them. Do not add any numbers or special characters \n            in your response. Your response should be in one long paragraph. Always answer as if you are speaking \n            to a real person. Do not say \x27In the image I see\x27 but say \x27With what I see, I think you have ...\x27 \n            Do not respond as an AI model or in markdown, your answer should mimic that of an actual doctor. \n            Keep your answer concise (max 2 sentences). No preamble, start your answer right away."

/-- Environment of external collaborators seen by `process_inputs`.
`fileExists`/`readFile` model the filesystem, `groqKey` the `GROQ_API_KEY`
environment variable, and the remaining fields the remote services.
`translateRes` — Modelled from the spec: `translate_text` is imported by
gradio_app.py from voice_of_the_doctor.py but defined nowhere in the
repository; spec section 4.5 gives `translate(text, targetLanguageCode) ->
string`, a single call returning translated text. -/
structure Env where
  fileExists : String → Bool
  readFile : String → List Nat
  groqKey : Option String
  transcribeRemote : String → Except String (Option String)
  emotionRes : String → String
  visionRes : String → Option String → String
  translateRes : String → String → String
  elevenRes : String → Option String

/-- Filesystem view used by `encode_image`: contents when the file exists. -/
def Env.fs (env : Env) : String → Option (List Nat) :=
  fun p => if env.fileExists p then some (env.readFile p) else none

/-- A Python keyword-argument binding succeeds only if every keyword names a
declared parameter; otherwise the call raises `TypeError` before the callee
body runs. -/
def bindOk (params kwargs : List String) : Bool :=
  kwargs.all (fun k => params.contains k)

/-- Parameters declared by `analyze_image_with_query`
(brain_of_the_doctor.py line 36). -/
def analyze_image_with_query_params : List String := ["query", "encoded_image", "model"]

/-- Keywords passed at the preliminary image-analysis call
(gradio_app.py lines 61-62). -/
def preliminary_call_kwargs : List String := ["query", "encoded_image", "model"]

/-- Keywords passed at the final response-composition call
(gradio_app.py lines 77-80). -/
def compose_call_kwargs : List String := ["query", "encoded_image", "model", "memory"]

/-- Parameters declared by `text_to_speech_with_elevenlabs`
(voice_of_the_doctor.py line 66). -/
def elevenlabs_params : List String := ["input_text", "output_filepath"]

/-- Keywords passed at the speech-synthesis call (gradio_app.py line 91). -/
def elevenlabs_call_kwargs : List String := ["input_text", "output_filepath", "language"]

/-- Transcription block of `process_inputs` (gradio_app.py lines 37-50):
either the credential-error early-return triple, or the pair
(speech_to_text_output, emotion). -/
def sttStep (env : Env) (audio : Option String) :
    Except (String × String × Option String) (String × String) :=
  if optTruthy audio && env.fileExists (audio.getD "") then
    if optTruthy env.groqKey then
      Except.ok
        (transcribe_with_groq env.fileExists (env.transcribeRemote (audio.getD ""))
          "whisper-large-v3" (audio.getD "") (env.groqKey.getD "") "auto",
         env.emotionRes (audio.getD ""))
    else Except.error ("Error: Missing GROQ API Key", "No doctor response", none)
  else Except.ok ("", "neutral")

/-- Image-analysis block of `process_inputs` (gradio_app.py lines 59-64):
returns the value of the local `encoded_image` when it was assigned, together
with `image_analysis`.  An `encode_image` failure would propagate. -/
def imageStep (env : Env) (image : Option String) :
    Except PyError (Option String × String) :=
  if optTruthy image && env.fileExists (image.getD "") then
    match encode_image env.fs (image.getD "") with
    | Except.error e => Except.error e
    | Except.ok enc => Except.ok (some enc, env.visionRes system_prompt (some enc))
  else Except.ok (none, "")

/-- Evaluation of the argument expression
`encoded_image if image_filepath else None` at gradio_app.py line 78: when
`image_filepath` is truthy but the analysis branch was skipped, the local
`encoded_image` was never assigned and the reference raises. -/
def composeImageArg (image : Option String) (encodedAssigned : Option String) :
    Except PyError (Option String) :=
  if optTruthy image then
    match encodedAssigned with
    | some e => Except.ok (some e)
    | none => Except.error PyError.nameError
  else Except.ok none

/-- Line 53 of gradio_app.py:
`user_input = text_input if text_input else speech_to_text_output`. -/
def effText (text : Option String) (stt : String) : String :=
  if optTruthy text then text.getD "" else stt

/-- Body of `process_inputs` after the validation check
(gradio_app.py lines 37-96).  Returns the final state of
`conversation_memory` paired with the outcome: a returned triple or a raised
exception. -/
def pipelineBody (env : Env) (mem : List Turn)
    (audio image text : Option String) (lang : String) :
    List Turn × Except PyError (String × String × Option String) :=
  match sttStep env audio with
  | Except.error triple => (mem, Except.ok triple)
  | Except.ok (stt, _emotion) =>
    let user_input := effText text stt
    let mem1 := mem ++ [⟨Role.user, user_input⟩]
    match imageStep env image with
    | Except.error e => (mem1, Except.error e)
    | Except.ok (encodedAssigned, _image_analysis) =>
      let symptom_analysis := symptom_checker user_input
      let mem2 := if strTruthy symptom_analysis then mem1 ++ [⟨Role.system, symptom_analysis⟩] else mem1
      let medical_info := fetch_medical_knowledge user_input
      let mem3 := if strTruthy medical_info then mem2 ++ [⟨Role.system, medical_info⟩] else mem2
      match composeImageArg image encodedAssigned with
      | Except.error e => (mem3, Except.error e)
      | Except.ok enc =>
        if bindOk analyze_image_with_query_params compose_call_kwargs then
          let ai_response := env.visionRes (system_prompt ++ " " ++ user_input) enc
          let mem4 := mem3 ++ [⟨Role.assistant, ai_response⟩]
          let ai_final := if lang ≠ "en" then env.translateRes ai_response lang else ai_response
          let voice_of_doctor : Option String :=
            if bindOk elevenlabs_params elevenlabs_call_kwargs then env.elevenRes ai_final
            else none
          (mem4, Except.ok (user_input, ai_final, voice_of_doctor))
        else (mem3, Except.error PyError.typeError)

/-- `process_inputs` (gradio_app.py lines 27-96).  The validation condition at
line 33 is `audio_filepath is None and image_filepath is None and
text_input.strip() == ""`; Python's `and` short-circuits, so `.strip()` is only
evaluated — and can only raise `AttributeError` on a `None` text — when both
paths are `None`. -/
def process_inputs (env : Env) (conversation_memory : List Turn)
    (audio_filepath image_filepath text_input : Option String)
    (language_preference : String) :
    List Turn × Except PyError (String × String × Option String) :=
  if audio_filepath.isNone && image_filepath.isNone then
    match text_input with
    | none => (conversation_memory, Except.error PyError.attributeError)
    | some t =>
      if pyStrip t = "" then
        (conversation_memory, Except.ok ("No input provided", "No doctor response", none))
      else pipelineBody env conversation_memory audio_filepath image_filepath text_input language_preference
  else pipelineBody env conversation_memory audio_filepath image_filepath text_input language_preference

/-! ## Concrete instances used by witnesses and counterexamples -/

/-- Numeric value of a decimal character string (inverse of `decRepr`). -/
def decVal (l : List Char) : Nat := Nat.ofDigits 10 (l.reverse.map decCharVal)

/-- Concrete filesystem for the C7 witness: only "rash.jpg" exists, holding
the three bytes 0, 255, 10. -/
def fsDemo : String → Option (List Nat) :=
  fun q => if q = "rash.jpg" then some [0, 255, 10] else none

/-- A benign environment: every file exists (contents 0, 255, 10), the GROQ
key is set, and every remote service answers normally. -/
def envDemo : Env :=
  { fileExists := fun _ => true
    readFile := fun _ => [0, 255, 10]
    groqKey := some "gsk-test"
    transcribeRemote := fun _ => Except.ok (some "I have a headache")
    emotionRes := fun _ => "neutral"
    visionRes := fun _ _ => "With what I see, I think you have a mild condition."
    translateRes := fun t _ => t
    elevenRes := fun _ => some "final.mp3" }

/-- `envDemo` with the GROQ API key absent from the environment. -/
def envNoKey : Env := { envDemo with groqKey := none }

/-- `envDemo` with a filesystem on which no path exists. -/
def envNoFile : Env := { envDemo with fileExists := fun _ => false }

/-! ## Helper lemmas -/

theorem firstMatch_eq_none_of (table : List (String × String)) (u : String)
    (h : ∀ p ∈ table, pyIn p.1 (pyLower u) = false) : firstMatch table u = none := by
  unfold firstMatch
  rw [List.find?_eq_none]
  intro p hp
  simp [h p hp]

theorem firstMatch_first (pre : List (String × String)) (k q : String)
    (post : List (String × String)) (u : String)
    (hpre : ∀ p ∈ pre, pyIn p.1 (pyLower u) = false)
    (hk : pyIn k (pyLower u) = true) :
    firstMatch (pre ++ (k, q) :: post) u = some (k, q) := by
  induction pre with
  | nil => simp [firstMatch, List.find?_cons, hk]
  | cons a pre ih =>
    have ha : pyIn a.1 (pyLower u) = false := hpre a (by simp)
    simpa [firstMatch, List.find?_cons, ha] using
      ih (fun p hp => hpre p (by simp [hp]))

theorem symptom_checker_ne_empty (t : String) : symptom_checker t ≠ "" := by
  unfold symptom_checker
  cases h : firstMatch symptom_mapping t with
  | none => decide
  | some p =>
    obtain ⟨s, q⟩ := p
    intro hc
    have hl := congrArg String.length hc
    simp [String.length_append] at hl
    exact (by decide : ¬ ("I see you mentioned " : String).length = 0) hl.1.1.1

theorem fetch_medical_knowledge_ne_empty (t : String) : fetch_medical_knowledge t ≠ "" := by
  unfold fetch_medical_knowledge
  cases h : firstMatch medical_knowledge t with
  | none => decide
  | some p =>
    obtain ⟨s, q⟩ := p
    intro hc
    have hl := congrArg String.length hc
    simp [String.length_append] at hl
    exact (by decide : ¬ ("Medical Information: " : String).length = 0) hl.1

theorem b64Val_b64Char : ∀ n < 64, b64Val (b64Char n) = n := by decide

theorem b64Char_ne_pad : ∀ n < 64, b64Char n ≠ '=' := by decide

theorem b64_roundtrip (bytes : List Nat) (h : ∀ b ∈ bytes, b < 256) :
    b64decode (b64encode bytes) = bytes := by
  induction bytes using b64encode.induct with
  | case1 => rfl
  | case2 b0 =>
    have hb0 : b0 < 256 := h b0 (by simp)
    simp [b64encode, b64decode, b64Val_b64Char _ (by omega : b0 / 4 < 64),
      b64Val_b64Char _ (by omega : b0 % 4 * 16 < 64)]
    omega
  | case3 b0 b1 =>
    have hb0 : b0 < 256 := h b0 (by simp)
    have hb1 : b1 < 256 := h b1 (by simp)
    simp [b64encode, b64decode, b64Char_ne_pad _ (by omega : b1 % 16 * 4 < 64),
      b64Val_b64Char _ (by omega : b0 / 4 < 64),
      b64Val_b64Char _ (by omega : b0 % 4 * 16 + b1 / 16 < 64),
      b64Val_b64Char _ (by omega : b1 % 16 * 4 < 64)]
    omega
  | case4 b0 b1 b2 rest ih =>
    have hb0 : b0 < 256 := h b0 (by simp)
    have hb1 : b1 < 256 := h b1 (by simp)
    have hb2 : b2 < 256 := h b2 (by simp)
    have hrest : ∀ b ∈ rest, b < 256 := fun b hb => h b (by simp [hb])
    simp [b64encode, b64decode, b64Char_ne_pad _ (by omega : b1 % 16 * 4 + b2 / 64 < 64),
      b64Char_ne_pad _ (by omega : b2 % 64 < 64),
      b64Val_b64Char _ (by omega : b0 / 4 < 64),
      b64Val_b64Char _ (by omega : b0 % 4 * 16 + b1 / 16 < 64),
      b64Val_b64Char _ (by omega : b1 % 16 * 4 + b2 / 64 < 64),
      b64Val_b64Char _ (by omega : b2 % 64 < 64), ih hrest]
    omega

/-! ## Claim theorems -/

/-- C4: for every free text `t`, if lower-cased `t` contains a symptom-table
keyword as a substring, `symptom_checker` returns exactly the templated
message for the first matching key in table order; with no matching keyword it
returns the generic more-detail prompt, and `fetch_medical_knowledge` under
the same substring-scan contract returns the generic consult-a-professional
fallback when no fact-table keyword matches. -/
theorem c4_keyword_match_and_fallbacks (t : String) :
    (∀ pre k q post, symptom_mapping = pre ++ (k, q) :: post →
      (∀ p ∈ pre, pyIn p.1 (pyLower t) = false) → pyIn k (pyLower t) = true →
      symptom_checker t = "I see you mentioned " ++ k ++ ". " ++ q)
    ∧ ((∀ p ∈ symptom_mapping, pyIn p.1 (pyLower t) = false) →
      symptom_checker t = "Can you describe your symptoms in more detail?")
    ∧ ((∀ p ∈ medical_knowledge, pyIn p.1 (pyLower t) = false) →
      fetch_medical_knowledge t =
        "I recommend consulting a healthcare professional for more detailed information.") := by
  refine ⟨?_, ?_, ?_⟩
  · intro pre k q post htab hpre hk
    unfold symptom_checker
    rw [htab, firstMatch_first pre k q post t hpre hk]
  · intro h
    unfold symptom_checker
    rw [firstMatch_eq_none_of symptom_mapping t h]
  · intro h
    unfold fetch_medical_knowledge
    rw [firstMatch_eq_none_of medical_knowledge t h]

/-- Witness for C4 at concrete inputs: "I have a headache" matches the
first table key, and "zzz" matches nothing in either table. -/
theorem c4_keyword_match_and_fallbacks_witness :
    symptom_checker "I have a headache" =
      "I see you mentioned headache. Do you have any other symptoms like fever or nausea?"
    ∧ symptom_checker "zzz" = "Can you describe your symptoms in more detail?"
    ∧ fetch_medical_knowledge "zzz" =
      "I recommend consulting a healthcare professional for more detailed information." :=
  ⟨(c4_keyword_match_and_fallbacks "I have a headache").1 []
      "headache" "Do you have any other symptoms like fever or nausea?"
      (symptom_mapping.drop 1) rfl (by simp) (by decide),
   (c4_keyword_match_and_fallbacks "zzz").2.1 (by decide),
   (c4_keyword_match_and_fallbacks "zzz").2.2 (by decide)⟩

/-- C7: for every existing file path, decoding the payload returned by
`encode_image` reproduces the file's original bytes exactly (base64
round-trip), and `encode_image` raises `FileNotFoundError` exactly when the
path does not name an existing file. -/
theorem c7_encode_image_roundtrip (fs : String → Option (List Nat)) (p : String) :
    (fs p = none ↔ encode_image fs p = Except.error PyError.fileNotFoundError)
    ∧ (∀ bytes, fs p = some bytes → (∀ b ∈ bytes, b < 256) →
        encode_image fs p = Except.ok (String.mk (b64encode bytes))
        ∧ b64decode (String.mk (b64encode bytes)).data = bytes) := by
  constructor
  · constructor
    · intro h
      simp [encode_image, h]
    · intro h
      cases hf : fs p with
      | none => rfl
      | some bytes => simp [encode_image, hf] at h
  · intro bytes hb hlt
    exact ⟨by simp [encode_image, hb], b64_roundtrip bytes hlt⟩

/-- Witness for C7 at a concrete file and a missing path. -/
theorem c7_encode_image_roundtrip_witness :
    encode_image fsDemo "rash.jpg" = Except.ok "AP8K"
    ∧ b64decode ("AP8K" : String).data = [0, 255, 10]
    ∧ encode_image fsDemo "missing.jpg" = Except.error PyError.fileNotFoundError := by
  have h := (c7_encode_image_roundtrip fsDemo "rash.jpg").2 [0, 255, 10] (by decide) (by decide)
  have h2 := (c7_encode_image_roundtrip fsDemo "missing.jpg").1.1 (by decide)
  refine ⟨?_, ?_, h2⟩
  · rw [h.1]
    exact congrArg Except.ok (by decide)
  · have := h.2
    simpa using this

/-- C6 counterexample: with an existing file and a remote transcript of
" hi ", `transcribe_with_groq` returns the transcript verbatim, not the
trimmed text "hi" the claim requires. -/
theorem c6_transcript_not_trimmed_counterexample :
    transcribe_with_groq (fun _ => true) (Except.ok (some " hi "))
      "whisper-large-v3" "a.mp3" "gsk" "auto" = " hi "
    ∧ pyStrip " hi " = "hi" ∧ (" hi " : String) ≠ "hi" :=
  ⟨rfl, by decide, by decide⟩

/-- C6 amended: `transcribe_with_groq` never raises past its boundary (it is
total); if the audio file does not exist it returns the missing-file sentinel;
if the remote call raises it returns the failure sentinel; if the remote call
yields a falsy transcription it returns the no-result sentinel; otherwise it
returns the transcript text exactly as received — not trimmed. -/
theorem c6_transcribe_contract (fileExists : String → Bool)
    (remote : Except String (Option String)) (m a k lg : String) :
    (fileExists a = false →
      transcribe_with_groq fileExists remote m a k lg = "Error: Audio file not found.")
    ∧ (∀ e, fileExists a = true → remote = Except.error e →
      transcribe_with_groq fileExists remote m a k lg = "Error: Failed to transcribe audio.")
    ∧ (fileExists a = true → remote = Except.ok none →
      transcribe_with_groq fileExists remote m a k lg = "Error: No transcription result.")
    ∧ (∀ txt, fileExists a = true → remote = Except.ok (some txt) →
      transcribe_with_groq fileExists remote m a k lg = txt) := by
  refine ⟨fun hf => by simp [transcribe_with_groq, hf],
    fun e hf hr => by simp [transcribe_with_groq, hf, hr],
    fun hf hr => by simp [transcribe_with_groq, hf, hr],
    fun txt hf hr => by simp [transcribe_with_groq, hf, hr]⟩

/-- Witness for C6 (amended) at concrete inputs. -/
theorem c6_transcribe_contract_witness :
    transcribe_with_groq (fun _ => false) (Except.ok none)
      "whisper-large-v3" "a.mp3" "gsk" "auto" = "Error: Audio file not found."
    ∧ transcribe_with_groq (fun _ => true) (Except.ok (some "found"))
      "whisper-large-v3" "a.mp3" "gsk" "auto" = "found" :=
  ⟨(c6_transcribe_contract (fun _ => false) (Except.ok none)
      "whisper-large-v3" "a.mp3" "gsk" "auto").1 rfl,
   (c6_transcribe_contract (fun _ => true) (Except.ok (some "found"))
      "whisper-large-v3" "a.mp3" "gsk" "auto").2.2.2 "found" rfl rfl⟩

theorem decCharVal_decDigitChar : ∀ d < 10, decCharVal (decDigitChar d) = d := by decide

theorem decVal_decRepr (n : Nat) : decVal (decRepr n) = n := by
  unfold decRepr
  by_cases h : n = 0
  · subst h
    decide
  · rw [if_neg h]
    unfold decVal
    rw [List.reverse_reverse, List.map_map]
    have hmap : (Nat.digits 10 n).map (decCharVal ∘ decDigitChar) = Nat.digits 10 n := by
      have hcongr : ∀ d ∈ Nat.digits 10 n, (decCharVal ∘ decDigitChar) d = id d :=
        fun d hd => decCharVal_decDigitChar d (Nat.digits_lt_base (by norm_num) hd)
      rw [List.map_congr_left hcongr, List.map_id]
    rw [hmap, Nat.ofDigits_digits]

theorem decRepr_injective {m n : Nat} (h : decRepr m = decRepr n) : m = n := by
  have := congrArg decVal h
  rwa [decVal_decRepr, decVal_decRepr] at this

/-- C8 counterexample: two distinct invocations of `text_to_speech_with_gtts`
(different input texts and languages) that happen during the same whole second
produce the same output path — the timestamp suffix has only one-second
resolution, so it does not guarantee uniqueness. -/
theorem c8_same_second_collision_counterexample :
    text_to_speech_with_gtts "hello" "final" "English" 1700000000 =
      text_to_speech_with_gtts "world" "final" "Hindi" 1700000000
    ∧ ("hello" : String) ≠ "world" :=
  ⟨rfl, by decide⟩

/-- C8 amended: two invocations of `text_to_speech_with_gtts` with the same
output prefix produce distinct timestamp-suffixed paths whenever their
whole-second timestamps differ; invocations falling in the same second collide
and can overwrite each other's output file. -/
theorem c8_distinct_seconds_distinct_paths (txt1 txt2 out lg1 lg2 : String)
    (t1 t2 : Nat) (h : t1 ≠ t2) :
    text_to_speech_with_gtts txt1 out lg1 t1 ≠ text_to_speech_with_gtts txt2 out lg2 t2 := by
  intro hc
  apply h
  apply decRepr_injective
  have hd := congrArg String.data hc
  simp only [text_to_speech_with_gtts, String.data_append] at hd
  have h1 := List.append_cancel_right hd
  exact List.append_cancel_left h1

/-- Witness for C8 (amended): timestamps 1 and 2 give different paths. -/
theorem c8_distinct_seconds_distinct_paths_witness :
    (1 : Nat) ≠ 2
    ∧ text_to_speech_with_gtts "a" "final" "English" 1 ≠
        text_to_speech_with_gtts "b" "final" "English" 2 :=
  ⟨by decide, c8_distinct_seconds_distinct_paths "a" "b" "final" "English" "English" 1 2 (by decide)⟩

theorem sttStep_missing_file (env : Env) (audio : Option String) (a : String)
    (ha : audio = some a) (hf : env.fileExists a = false) :
    sttStep env audio = Except.ok ("", "neutral") := by
  subst ha
  simp [sttStep, hf]

theorem imageStep_isOk (env : Env) (image : Option String) :
    ∃ r, imageStep env image = Except.ok r := by
  unfold imageStep
  split
  · next h =>
    have hf : env.fileExists (image.getD "") = true := ((Bool.and_eq_true _ _).mp h).2
    have henc : encode_image env.fs (image.getD "") =
        Except.ok (String.mk (b64encode (env.readFile (image.getD "")))) := by
      simp [encode_image, Env.fs, hf]
    rw [henc]
    exact ⟨_, rfl⟩
  · exact ⟨_, rfl⟩

theorem bindOk_compose_false :
    bindOk analyze_image_with_query_params compose_call_kwargs = false := by decide

theorem pipelineBody_memory (env : Env) (mem : List Turn)
    (audio image text : Option String) (lang : String) (stt emo : String)
    (hstt : sttStep env audio = Except.ok (stt, emo)) :
    (pipelineBody env mem audio image text lang).1 =
      mem ++ [⟨Role.user, effText text stt⟩,
              ⟨Role.system, symptom_checker (effText text stt)⟩,
              ⟨Role.system, fetch_medical_knowledge (effText text stt)⟩] := by
  obtain ⟨⟨enc, ia⟩, him⟩ := imageStep_isOk env image
  unfold pipelineBody
  rw [hstt, him]
  cases hc : composeImageArg image enc with
  | error e =>
    simp [strTruthy, symptom_checker_ne_empty, fetch_medical_knowledge_ne_empty, hc]
  | ok v =>
    simp [strTruthy, symptom_checker_ne_empty, fetch_medical_knowledge_ne_empty, hc,
      bindOk_compose_false]

theorem process_inputs_eq_body (env : Env) (mem : List Turn)
    (audio image text : Option String) (lang : String)
    (hv : (audio.isNone && image.isNone) = false ∨ ∃ t, text = some t ∧ pyStrip t ≠ "") :
    process_inputs env mem audio image text lang = pipelineBody env mem audio image text lang := by
  unfold process_inputs
  by_cases hb : (audio.isNone && image.isNone) = true
  · rw [if_pos hb]
    rcases hv with h | ⟨t, ht, hs⟩
    · rw [hb] at h
      exact absurd h (by simp)
    · subst ht
      simp [hs]
  · rw [if_neg hb]

theorem take_len_succ_append {α : Type} (l : List α) (a : α) (r : List α) :
    (l ++ a :: r).take (l.length + 1) = l ++ [a] := by
  induction l with
  | nil => simp
  | cons x xs ih => simp [ih]

/-- C1 (code-bug evidence): a request that passes input validation and the
credential check does NOT make every adapter invocation return a value — the
final response-composition call at gradio_app.py line 77 passes the keyword
`memory`, which `analyze_image_with_query` does not declare, so the call
raises `TypeError` and `process_inputs` never returns its triple.  The second
conjunct exhibits the cause: the keyword set of the compose call does not bind
against the adapter's declared parameters. -/
theorem c1_compose_call_raises_type_error :
    (process_inputs envDemo [] none none (some "I have a headache") "en").2 =
      Except.error PyError.typeError
    ∧ bindOk analyze_image_with_query_params compose_call_kwargs = false :=
  ⟨rfl, rfl⟩

/-- C2 (code-bug evidence): in the spec scenario (no audio, existing image
"rash.jpg", empty text, language "en") with valid credentials, the pipeline
raises `TypeError` at the second vision-language invocation instead of
returning a triple with a non-null audio path; moreover the speech-synthesis
call itself passes the undeclared keyword `language` to
`text_to_speech_with_elevenlabs`, so even if composition succeeded the caught
`TypeError` would force a `None` audio path. -/
theorem c2_image_scenario_raises :
    (process_inputs envDemo [] none (some "rash.jpg") (some "") "en").2 =
      Except.error PyError.typeError
    ∧ bindOk elevenlabs_params elevenlabs_call_kwargs = false :=
  ⟨rfl, rfl⟩

/-- C3 counterexample: a request whose audio path is the empty string (empty,
but not `None`), with no image and empty free text, does NOT take the fixed
"no input" early return: the `is None` test at line 33 is false for `""`, so
the pipeline proceeds and appends to session memory. -/
theorem c3_empty_string_audio_counterexample :
    (process_inputs envDemo [] (some "") none (some "") "en").1 ≠ [] := by decide

/-- C3 amended: when the audio path and the image path are both `None` and the
free text is a string that strips to empty, the orchestrator returns the fixed
("No input provided", "No doctor response", None) triple immediately, for
every environment (no adapter is consulted) and with the session memory
unchanged.  (Empty-string paths do not take this branch, and a `None` free
text raises `AttributeError` instead.) -/
theorem c3_no_input_early_return (env : Env) (mem : List Turn) (t lang : String)
    (h : pyStrip t = "") :
    process_inputs env mem none none (some t) lang =
      (mem, Except.ok ("No input provided", "No doctor response", none)) := by
  simp [process_inputs, h]

/-- Witness for C3 (amended) on whitespace-only free text. -/
theorem c3_no_input_early_return_witness :
    pyStrip "   " = ""
    ∧ process_inputs envDemo [] none none (some "   ") "en" =
        ([], Except.ok ("No input provided", "No doctor response", none)) :=
  ⟨by decide, c3_no_input_early_return envDemo [] "   " "en" (by decide)⟩

/-- C10 counterexample: with `None` free text but an audio path provided, the
validation conjunction short-circuits before `.strip()` is evaluated, so no
`AttributeError` is raised — here the request returns the credential-error
triple normally. -/
theorem c10_audio_present_no_attribute_error_counterexample :
    process_inputs envNoKey [] (some "a.mp3") none none "en" =
      ([], Except.ok ("Error: Missing GROQ API Key", "No doctor response", none)) := rfl

/-- C10 amended: `process_inputs` raises `AttributeError` on a `None` free
text only when the audio path and the image path are also both `None` (only
then does the short-circuiting validation conjunction reach
`text_input.strip()`); in that case it raises for every environment, leaving
memory unchanged. -/
theorem c10_none_text_attribute_error (env : Env) (mem : List Turn) (lang : String) :
    process_inputs env mem none none none lang = (mem, Except.error PyError.attributeError) := by
  simp [process_inputs]

/-- C5: when explicit free text (non-empty) and a transcript are both
available, the effective text carried into the pipeline — the content of the
appended user turn — is the explicit free text; and when the audio path does
not name an existing file, the transcription step is skipped (the
transcription block yields transcript "" without consulting the credential),
the outcome is independent of the GROQ key, the remote transcription service
and the emotion service, and the pipeline proceeds on the free text. -/
theorem c5_effective_text_and_missing_audio (env : Env) (mem : List Turn)
    (audio image : Option String) (t lang : String) :
    (∀ stt emo, sttStep env audio = Except.ok (stt, emo) → t ≠ "" →
      ((audio.isNone && image.isNone) = false ∨ pyStrip t ≠ "") →
      ((process_inputs env mem audio image (some t) lang).1).take (mem.length + 1) =
        mem ++ [⟨Role.user, t⟩])
    ∧ (∀ a, audio = some a → env.fileExists a = false →
        sttStep env audio = Except.ok ("", "neutral")
        ∧ ∀ key remote emo,
          process_inputs
            { env with groqKey := key, transcribeRemote := remote, emotionRes := emo }
            mem audio image (some t) lang =
          process_inputs env mem audio image (some t) lang) := by
  constructor
  · intro stt emo hstt ht hv
    have hv' : (audio.isNone && image.isNone) = false
        ∨ ∃ u, (some t : Option String) = some u ∧ pyStrip u ≠ "" := by
      rcases hv with h | h
      · exact Or.inl h
      · exact Or.inr ⟨t, rfl, h⟩
    rw [process_inputs_eq_body env mem audio image (some t) lang hv',
      pipelineBody_memory env mem audio image (some t) lang stt emo hstt]
    have heff : effText (some t) stt = t := by simp [effText, optTruthy, ht]
    rw [heff]
    exact take_len_succ_append mem _ _
  · intro a ha hf
    refine ⟨sttStep_missing_file env audio a ha hf, ?_⟩
    intro key remote emo
    have hfalse : (audio.isNone && image.isNone) = false := by
      subst ha
      rfl
    rw [process_inputs_eq_body _ mem audio image (some t) lang (Or.inl hfalse),
      process_inputs_eq_body env mem audio image (some t) lang (Or.inl hfalse)]
    have h1 : sttStep
        { env with groqKey := key, transcribeRemote := remote, emotionRes := emo } audio =
        Except.ok ("", "neutral") := sttStep_missing_file _ audio a ha hf
    have h2 : sttStep env audio = Except.ok ("", "neutral") :=
      sttStep_missing_file env audio a ha hf
    unfold pipelineBody
    rw [h1, h2]
    rfl

/-- Witness for C5 at concrete inputs: typed text wins over the transcript,
and with a missing audio file the outcome ignores key, transcription and
emotion services. -/
theorem c5_effective_text_and_missing_audio_witness :
    ("typed symptoms" : String) ≠ ""
    ∧ ((process_inputs envDemo [] (some "v.mp3") none (some "typed symptoms") "en").1).take 1 =
        [⟨Role.user, "typed symptoms"⟩]
    ∧ sttStep envNoFile (some "v.mp3") = Except.ok ("", "neutral")
    ∧ process_inputs
        { envNoFile with
          groqKey := none
          transcribeRemote := fun _ => Except.error "down"
          emotionRes := fun _ => "angry" }
        [] (some "v.mp3") none (some "typed symptoms") "en" =
      process_inputs envNoFile [] (some "v.mp3") none (some "typed symptoms") "en" := by
  have h1 := (c5_effective_text_and_missing_audio envDemo [] (some "v.mp3") none
    "typed symptoms" "en").1 "I have a headache" "neutral" rfl (by decide) (Or.inl rfl)
  have h2 := (c5_effective_text_and_missing_audio envNoFile [] (some "v.mp3") none
    "typed symptoms" "en").2 "v.mp3" rfl rfl
  exact ⟨by decide, by simpa using h1, h2.1,
    h2.2 none (fun _ => Except.error "down") (fun _ => "angry")⟩

/-- C9 counterexample: a request that passes input validation (an audio path
is provided) but hits the missing-credential early return appends nothing to
session memory, so "every request that passes validation appends a user turn
and two system turns" fails as stated. -/
theorem c9_credential_return_no_append_counterexample :
    process_inputs envNoKey [] (some "a.mp3") none (some "hi") "en" =
      ([], Except.ok ("Error: Missing GROQ API Key", "No doctor response", none)) := rfl

/-- C9 amended: `symptom_checker` and `fetch_medical_knowledge` return a
non-empty string on every input, so the orchestrator's if-non-empty guards
always fire, and every request that passes validation and is not
short-circuited by the credential check appends to session memory a user turn
followed by exactly two system turns before the composed response is
requested. -/
theorem c9_lookup_nonempty_and_memory_appends (env : Env) (mem : List Turn)
    (audio image text : Option String) (lang : String) (stt emo : String)
    (hv : (audio.isNone && image.isNone) = false ∨ ∃ t, text = some t ∧ pyStrip t ≠ "")
    (hstt : sttStep env audio = Except.ok (stt, emo)) :
    symptom_checker (effText text stt) ≠ ""
    ∧ fetch_medical_knowledge (effText text stt) ≠ ""
    ∧ (process_inputs env mem audio image text lang).1 =
        mem ++ [⟨Role.user, effText text stt⟩,
                ⟨Role.system, symptom_checker (effText text stt)⟩,
                ⟨Role.system, fetch_medical_knowledge (effText text stt)⟩] :=
  ⟨symptom_checker_ne_empty _, fetch_medical_knowledge_ne_empty _, by
    rw [process_inputs_eq_body env mem audio image text lang hv]
    exact pipelineBody_memory env mem audio image text lang stt emo hstt⟩

/-- Witness for C9 (amended) on a concrete text-only request. -/
theorem c9_lookup_nonempty_and_memory_appends_witness :
    (process_inputs envDemo [] none none (some "I have a headache") "en").1 =
      [⟨Role.user, "I have a headache"⟩,
       ⟨Role.system,
        "I see you mentioned headache. Do you have any other symptoms like fever or nausea?"⟩,
       ⟨Role.system,
        "Medical Information: Headaches can be caused by stress, dehydration, or migraines. Drink water and rest."⟩] := by
  have h := c9_lookup_nonempty_and_memory_appends envDemo [] none none
    (some "I have a headache") "en" "" "neutral"
    (Or.inr ⟨"I have a headache", rfl, by decide⟩) rfl
  rw [h.2.2]
  decide

end AIDoctor
